import Mathlib

/-!
Shallow embedding of the TripSmith itinerary composition core
(`planner_agent.py` together with the record schemas of `schemas.py`).

Modelling conventions:
* Python `float` values (prices, ratings, budgets, durations) are modelled as
  exact rationals `ℚ`; the literal `0.4` of the hotel-budget allocation is the
  exact rational `2/5`.
* Python `date` values are modelled as day numbers `Int` (so `d2 - d1` is the
  `(d2 - d1).days` of the source, and `d + timedelta(days=k)` is `d + k`).
  `datetime` is a day number together with a time-of-day component.
* Python's `sorted(..., key=...)` is a stable sort by the key.  For a total,
  transitive, reflexive comparator every stable sort produces the same output
  list, so it is modelled by `List.insertionSort` (stable, and structurally
  recursive, hence evaluable inside proofs) with the lexicographic
  non-strict comparator of the corresponding key.
* `Optional[float]` truthiness (`if request.budget:`) is `pyTruthy`: both
  `None` and `0.0` are falsy.
* The pydantic field validators of `schemas.py` run at record construction;
  a construction whose validator raises is modelled as `Except.error`.
-/

namespace TripSmith

/-- `Currency` enum of `schemas.py`. -/
inductive Currency
  | USD | EUR | GBP | CAD | AUD
deriving DecidableEq, Repr

/-- `FlightClass` enum of `schemas.py`. -/
inductive FlightClass
  | economy | premium_economy | business | first
deriving DecidableEq, Repr

/-- `HotelRating` enum of `schemas.py`. -/
inductive HotelRating
  | budget | standard | premium | luxury
deriving DecidableEq, Repr

/-- `ActivityType` enum of `schemas.py`. -/
inductive ActivityType
  | cultural | outdoor | food | shopping | entertainment | historical | nature
deriving DecidableEq, Repr

/-- The `.value` string of an `ActivityType` member (a `str` enum in the
source).  This map is injective, so grouping POIs by `category.value` (as the
Python dict does) coincides with grouping by `category`. -/
def ActivityType.value : ActivityType → String
  | .cultural => "cultural"
  | .outdoor => "outdoor"
  | .food => "food"
  | .shopping => "shopping"
  | .entertainment => "entertainment"
  | .historical => "historical"
  | .nature => "nature"

/-- A Python `datetime`: a calendar day number plus a time-of-day component.
`.date()` projects out the day number. -/
structure DateTime where
  date : Int
  minutesOfDay : ℚ := 0
deriving DecidableEq, Repr

/-- `Flight` schema of `schemas.py`. -/
structure Flight where
  airline : String
  flight_number : String
  departure_airport : String
  arrival_airport : String
  departure_time : DateTime
  arrival_time : DateTime
  duration_minutes : Int
  price : ℚ
  currency : Currency := .USD
  flight_class : FlightClass := .economy
  stops : Int := 0
  booking_link : Option String := none
deriving DecidableEq, Repr

/-- `Hotel` schema of `schemas.py`. -/
structure Hotel where
  name : String
  address : String
  city : String
  country : String
  rating : ℚ
  rating_category : HotelRating
  price_per_night : ℚ
  currency : Currency := .USD
  amenities : List String := []
  booking_link : Option String := none
  latitude : Option ℚ := none
  longitude : Option ℚ := none
deriving DecidableEq, Repr

/-- `PointOfInterest` schema of `schemas.py`. -/
structure PointOfInterest where
  name : String
  description : String
  category : ActivityType
  address : Option String := none
  city : String
  country : String
  rating : Option ℚ := none
  price_range : Option String := none
  duration_hours : Option ℚ := none
  opening_hours : Option String := none
  website : Option String := none
  latitude : Option ℚ := none
  longitude : Option ℚ := none
deriving DecidableEq, Repr

/-- A free-time slot descriptor as built by `create_free_time_slots`
(a three-key string dict in the source). -/
structure TimeSlot where
  start_time : String
  end_time : String
  description : String
deriving DecidableEq, Repr

/-- `DailySchedule` schema of `schemas.py`. -/
structure DailySchedule where
  date : Int
  activities : List PointOfInterest := []
  free_time_slots : List TimeSlot := []
  notes : Option String := none
deriving DecidableEq, Repr

instance : Inhabited DailySchedule := ⟨{ date := 0 }⟩

/-- `Itinerary` schema of `schemas.py` (the `created_at`/`updated_at`
timestamp metadata fields are omitted; no claim concerns them). -/
structure Itinerary where
  trip_name : String
  destination : String
  start_date : Int
  end_date : Int
  total_days : Int
  outbound_flight : Option Flight := none
  return_flight : Option Flight := none
  hotels : List Hotel := []
  daily_schedules : List DailySchedule := []
  total_budget : Option ℚ := none
  currency : Currency := .USD
deriving DecidableEq, Repr

/-- `SearchRequest` schema of `schemas.py` (the open `preferences` mapping is
modelled as string key/value pairs; none of the planner functions under study
read it). -/
structure SearchRequest where
  destination : String
  start_date : Int
  end_date : Int
  budget : Option ℚ := none
  currency : Currency := .USD
  travelers : Int := 1
  preferences : List (String × String) := []
deriving DecidableEq, Repr

/-- Python truthiness of an `Optional[float]`: `None` and `0.0` are falsy,
every other number is truthy. -/
def pyTruthy : Option ℚ → Bool
  | none => false
  | some x => x != 0

/-- Pydantic construction of an `Itinerary`: runs the `validate_dates` and
`validate_total_days` field validators of `schemas.py` (lines 159-171);
a validator raising `ValueError` is modelled as `Except.error`. -/
def Itinerary.build (trip_name destination : String) (start_date end_date total_days : Int)
    (outbound_flight return_flight : Option Flight) (hotels : List Hotel)
    (daily_schedules : List DailySchedule) (total_budget : Option ℚ)
    (currency : Currency) : Except String Itinerary :=
  if start_date < end_date then
    if total_days = (end_date - start_date) + 1 then
      .ok { trip_name, destination, start_date, end_date, total_days,
            outbound_flight, return_flight, hotels, daily_schedules,
            total_budget, currency }
    else
      .error "Total days mismatch"
  else
    .error "End date must be after start date"

/-- The comparator of `sorted(flights, key=lambda x: (x.price, x.duration_minutes))`
(`planner_agent.py` line 167): the non-strict lexicographic order on the key. -/
def flightLE (a b : Flight) : Prop :=
  a.price < b.price ∨ (a.price = b.price ∧ a.duration_minutes ≤ b.duration_minutes)

instance : DecidableRel flightLE := fun a b => by
  unfold flightLE; infer_instance

instance : IsRefl Flight flightLE :=
  ⟨fun a => Or.inr ⟨rfl, le_refl _⟩⟩

instance : IsTotal Flight flightLE := by
  constructor
  intro a b
  rcases lt_trichotomy a.price b.price with hlt | heq | hgt
  · exact Or.inl (Or.inl hlt)
  · rcases le_total a.duration_minutes b.duration_minutes with hd | hd
    · exact Or.inl (Or.inr ⟨heq, hd⟩)
    · exact Or.inr (Or.inr ⟨heq.symm, hd⟩)
  · exact Or.inr (Or.inl hgt)

instance : IsTrans Flight flightLE := by
  constructor
  intro a b c hab hbc
  rcases hab with hab | ⟨hab, hab'⟩ <;> rcases hbc with hbc | ⟨hbc, hbc'⟩
  · exact Or.inl (hab.trans hbc)
  · exact Or.inl (hbc ▸ hab)
  · exact Or.inl (hab ▸ hbc)
  · exact Or.inr ⟨hab.trans hbc, le_trans hab' hbc'⟩

/-- `PlannerAgent.select_best_flights` (`planner_agent.py` lines 152-180). -/
def selectBestFlights (flights : List Flight) (_request : SearchRequest) :
    Option Flight × Option Flight :=
  if flights.isEmpty then (none, none)
  else
    let sorted_flights := List.insertionSort flightLE flights
    let outbound_flight := sorted_flights.head?
    let return_flight :=
      if sorted_flights.length > 1 then sorted_flights[1]? else outbound_flight
    (outbound_flight, return_flight)

/-- The comparator of `sorted(hotels, key=lambda x: (-x.rating, x.price_per_night))`
(`planner_agent.py` line 204): rating descending, then nightly price ascending. -/
def hotelLE (a b : Hotel) : Prop :=
  b.rating < a.rating ∨ (a.rating = b.rating ∧ a.price_per_night ≤ b.price_per_night)

instance : DecidableRel hotelLE := fun a b => by
  unfold hotelLE; infer_instance

instance : IsRefl Hotel hotelLE :=
  ⟨fun a => Or.inr ⟨rfl, le_refl _⟩⟩

instance : IsTotal Hotel hotelLE := by
  constructor
  intro a b
  rcases lt_trichotomy b.rating a.rating with hlt | heq | hgt
  · exact Or.inl (Or.inl hlt)
  · rcases le_total a.price_per_night b.price_per_night with hd | hd
    · exact Or.inl (Or.inr ⟨heq.symm, hd⟩)
    · exact Or.inr (Or.inr ⟨heq, hd⟩)
  · exact Or.inr (Or.inl hgt)

instance : IsTrans Hotel hotelLE := by
  constructor
  intro a b c hab hbc
  rcases hab with hab | ⟨hab, hab'⟩ <;> rcases hbc with hbc | ⟨hbc, hbc'⟩
  · exact Or.inl (hbc.trans hab)
  · exact Or.inl (hbc ▸ hab)
  · exact Or.inl (hab ▸ hbc)
  · exact Or.inr ⟨hab.trans hbc, le_trans hab' hbc'⟩

/-- `PlannerAgent.select_best_hotels` (`planner_agent.py` lines 182-210).
The Python float literal `0.4` is the exact rational `2/5`. -/
def selectBestHotels (hotels : List Hotel) (request : SearchRequest)
    (trip_duration : Int) : List Hotel :=
  if hotels.isEmpty then []
  else
    let filtered :=
      if pyTruthy request.budget then
        let max_hotel_budget := request.budget.getD 0 * (2/5 : ℚ)
        let max_per_night := max_hotel_budget / (trip_duration : ℚ)
        hotels.filter (fun h => decide (h.price_per_night ≤ max_per_night))
      else hotels
    let sorted_hotels := List.insertionSort hotelLE filtered
    if sorted_hotels.length ≥ 2 then sorted_hotels.take 2 else sorted_hotels

/-- The POIs of one category group of the `pois_by_category` dict: the dict
appends in input order, so a group is the in-order sublist of that category. -/
def poisInCategory (pois : List PointOfInterest) (c : ActivityType) : List PointOfInterest :=
  pois.filter (fun p => p.category == c)

/-- The key list of the `pois_by_category` dict: category keys in
first-occurrence (Python dict insertion) order. -/
def categoryKeys (pois : List PointOfInterest) : List ActivityType :=
  pois.foldl (fun acc p => if p.category ∈ acc then acc else acc ++ [p.category]) []

/-- The `for category in [...priority...]: if category in pois_by_category:
selected.extend(group[:1]); break` loop of `select_activities_for_day`. -/
def pickByPriority (pois : List PointOfInterest) : List ActivityType → List PointOfInterest
  | [] => []
  | c :: rest =>
      if c ∈ categoryKeys pois then (poisInCategory pois c).take 1
      else pickByPriority pois rest

/-- `PlannerAgent.select_activities_for_day` (`planner_agent.py` lines 250-306).
The middle-day loop `for i, category in enumerate(categories): if i < 2: ...`
takes the first POI of each of the first two dict keys. -/
def selectActivitiesForDay (pois : List PointOfInterest) (day : Nat)
    (trip_duration : Nat) : List PointOfInterest :=
  if pois.isEmpty then []
  else
    let selected_activities :=
      if day == 0 then
        pickByPriority pois [ActivityType.food, ActivityType.entertainment, ActivityType.cultural]
      else if day == trip_duration - 1 then
        pickByPriority pois [ActivityType.shopping, ActivityType.food, ActivityType.cultural]
      else
        ((categoryKeys pois).take 2).flatMap (fun c => (poisInCategory pois c).take 1)
    selected_activities.take 3

/-- `activity.duration_hours or 2.0` (`planner_agent.py` line 321): Python `or`
replaces both `None` and the falsy `0.0` by the default (the POI validator
forbids `0.0`, but the embedding keeps the exact `or` semantics). -/
def durationOrDefault : Option ℚ → ℚ
  | none => 2
  | some x => if x = 0 then 2 else x

/-- Total activity time of a day (`planner_agent.py` line 321). -/
def totalActivityTime (activities : List PointOfInterest) : ℚ :=
  (activities.map (fun a => durationOrDefault a.duration_hours)).sum

/-- `PlannerAgent.create_free_time_slots` (`planner_agent.py` lines 308-341). -/
def createFreeTimeSlots (activities : List PointOfInterest) : List TimeSlot :=
  let total_activity_time := totalActivityTime activities
  if total_activity_time < 8 then
    let remaining_time := 8 - total_activity_time
    (if remaining_time ≥ 2 then
      [{ start_time := "2:00 PM", end_time := "4:00 PM",
         description := "Free time for relaxation or exploration" }]
     else [])
    ++
    (if remaining_time ≥ 4 then
      [{ start_time := "6:00 PM", end_time := "8:00 PM",
         description := "Evening free time" }]
     else [])
  else []

/-- `PlannerAgent.generate_day_notes` (`planner_agent.py` lines 343-361). -/
def generateDayNotes (activities : List PointOfInterest) (day : Nat)
    (trip_duration : Nat) : String :=
  if day == 0 then "Arrival day - light activities to get oriented"
  else if day == trip_duration - 1 then "Departure day - packing and final activities"
  else
    let activity_types := activities.map (fun a => a.category.value)
    "Full day of " ++ String.intercalate ", " activity_types ++ " activities"

/-- `PlannerAgent.create_daily_schedules` (`planner_agent.py` lines 212-248):
one schedule per `day in range(trip_duration)`, dated `start_date + day`. -/
def createDailySchedules (request : SearchRequest) (pois : List PointOfInterest)
    (trip_duration : Nat) : List DailySchedule :=
  (List.range trip_duration).map (fun (day : Nat) =>
    let current_date := request.start_date + (day : Int)
    let day_activities := selectActivitiesForDay pois day trip_duration
    { date := current_date
      activities := day_activities
      free_time_slots := createFreeTimeSlots day_activities
      notes := some (generateDayNotes day_activities day trip_duration) })

/-- `PlannerAgent.create_itinerary` (`planner_agent.py` lines 96-150):
`trip_duration = (end_date - start_date).days`, then the selections, then the
pydantic `Itinerary(...)` construction (whose validators may raise — the
surrounding `except` re-raises, so an error propagates to the caller). -/
def createItinerary (request : SearchRequest) (flights : List Flight)
    (hotels : List Hotel) (pois : List PointOfInterest) : Except String Itinerary :=
  let trip_duration := request.end_date - request.start_date
  let selected_flights := selectBestFlights flights request
  let selected_hotels := selectBestHotels hotels request trip_duration
  let daily_schedules := createDailySchedules request pois trip_duration.toNat
  Itinerary.build ("Trip to " ++ request.destination) request.destination
    request.start_date request.end_date trip_duration
    selected_flights.1 selected_flights.2 selected_hotels daily_schedules
    request.budget request.currency

/-- The per-activity amount of `calculate_total_cost` (`planner_agent.py`
lines 428-436): a fixed lookup on the `price_range` tier. -/
def activityTierCost (activity : PointOfInterest) : ℚ :=
  match activity.price_range with
  | some "$" => 20
  | some "$$" => 50
  | some "$$$" => 100
  | _ => 0

/-- `PlannerAgent.calculate_total_cost` (`planner_agent.py` lines 405-438),
as the source's running `total_cost += ...` accumulation. -/
def calculateTotalCost (itinerary : Itinerary) : ℚ :=
  let c0 : ℚ := 0
  let c1 := match itinerary.outbound_flight with
    | some f => c0 + f.price
    | none => c0
  let c2 := match itinerary.return_flight with
    | some f => c1 + f.price
    | none => c1
  let c3 := itinerary.hotels.foldl
    (fun acc h => acc + h.price_per_night * (itinerary.total_days : ℚ)) c2
  itinerary.daily_schedules.foldl
    (fun acc ds => ds.activities.foldl (fun a act => a + activityTierCost act) acc) c3

/-- `PlannerAgent.validate_itinerary` (`planner_agent.py` lines 363-403):
four checks, in order, returning `False` on the first violation. -/
def validateItinerary (itinerary : Itinerary) : Bool :=
  if itinerary.hotels.isEmpty then false
  else if (match itinerary.outbound_flight with
           | some f => decide (f.departure_time.date ≠ itinerary.start_date)
           | none => false) then false
  else if (itinerary.daily_schedules.length : Int) ≠ itinerary.total_days then false
  else if pyTruthy itinerary.total_budget then
    if itinerary.total_budget.getD 0 < calculateTotalCost itinerary then false
    else true
  else true

/-! ## Example records (used to instantiate theorems on concrete inputs) -/

/-- An example timestamp on day 0. -/
def exDT : DateTime := { date := 0 }

/-- Example flight, 350 USD / 210 min. -/
def exFlightA : Flight :=
  { airline := "AirA", flight_number := "A1", departure_airport := "JFK",
    arrival_airport := "LAX", departure_time := exDT, arrival_time := exDT,
    duration_minutes := 210, price := 350 }

/-- Example flight, 420 USD / 225 min. -/
def exFlightB : Flight :=
  { exFlightA with
    airline := "AirB", flight_number := "B7", price := 420
    duration_minutes := 225 }

/-- Example hotel, 120 USD per night, rating 4.5. -/
def exHotelA : Hotel :=
  { name := "HotelA", address := "1 Main St", city := "LA", country := "US",
    rating := 4.5, rating_category := .luxury, price_per_night := 120 }

/-- Example hotel, 65 USD per night, rating 2.5. -/
def exHotelB : Hotel :=
  { exHotelA with
    name := "HotelB", rating := 2.5, rating_category := .budget
    price_per_night := 65 }

/-- Example food POI, tier one dollar sign, one hour. -/
def exPOIFood : PointOfInterest :=
  { name := "Cafe", description := "a food stop", category := .food,
    city := "LA", country := "US", price_range := some "$",
    duration_hours := some 1 }

/-- Example cultural POI, tier two dollar signs, three hours. -/
def exPOICultural : PointOfInterest :=
  { exPOIFood with
    name := "Museum", category := .cultural
    price_range := some "$$", duration_hours := some 3 }

/-- Example POI with a nine-hour duration (fills a whole day). -/
def exPOILong : PointOfInterest :=
  { exPOIFood with
    name := "Trek", category := .outdoor, price_range := none
    duration_hours := some 9 }

/-! ## Helper lemmas -/

/-- The head of an insertion-sorted list is a minimum of the original list
(for a reflexive, transitive, total comparator). -/
theorem head?_insertionSort_min {α : Type} (r : α → α → Prop) [DecidableRel r]
    [IsTotal α r] [IsTrans α r] [IsRefl α r] (l : List α) (x : α)
    (hx : (List.insertionSort r l).head? = some x) :
    x ∈ l ∧ ∀ b ∈ l, r x b := by
  cases hs : List.insertionSort r l with
  | nil => rw [hs] at hx; simp at hx
  | cons y ys =>
    rw [hs] at hx
    simp only [List.head?_cons, Option.some.injEq] at hx
    subst hx
    have hsorted := List.sorted_insertionSort r l
    rw [hs] at hsorted
    constructor
    · have hmem : y ∈ List.insertionSort r l := by
        rw [hs]; exact List.mem_cons_self _ _
      exact (List.mem_insertionSort r).mp hmem
    · intro b hb
      have hb' : b ∈ List.insertionSort r l := (List.mem_insertionSort r).mpr hb
      rw [hs] at hb'
      rcases List.mem_cons.mp hb' with h | h
      · exact h ▸ refl_of r y
      · exact List.rel_of_sorted_cons hsorted b h

/-- `sorted_hotels[:2] if len(sorted_hotels) >= 2 else sorted_hotels`
is just `take 2`. -/
theorem take_two_branch_eq {α : Type} (l : List α) :
    (if l.length ≥ 2 then l.take 2 else l) = l.take 2 := by
  by_cases h : l.length ≥ 2
  · rw [if_pos h]
  · rw [if_neg h, List.take_of_length_le (by omega)]

/-! ## Theorems -/

/-- C1: the claim says `create_itinerary` succeeds for every request with
`end_date > start_date` and never signals failure.  The code contradicts its
own schema: the composer passes `total_days = (end_date - start_date).days`
while the `validate_total_days` validator of `schemas.py` demands
`(end_date - start_date).days + 1`, so the pydantic `Itinerary(...)`
construction always raises and `create_itinerary` re-raises — the composer
never succeeds on a valid date range, for any candidate lists. -/
theorem c1_create_itinerary_always_raises (request : SearchRequest)
    (flights : List Flight) (hotels : List Hotel) (pois : List PointOfInterest)
    (hdates : request.start_date < request.end_date) :
    createItinerary request flights hotels pois = .error "Total days mismatch" := by
  have hne : ¬ (request.end_date - request.start_date
      = (request.end_date - request.start_date) + 1) := by omega
  simp only [createItinerary, Itinerary.build, if_pos hdates, if_neg hne]

/-- Witness for C1's theorem at a concrete failing input. -/
theorem c1_create_itinerary_always_raises_witness :
    (0 : Int) < 2 ∧
    createItinerary { destination := "Los Angeles", start_date := 0, end_date := 2 }
        [] [] [] = .error "Total days mismatch" :=
  ⟨by decide,
   c1_create_itinerary_always_raises
     { destination := "Los Angeles", start_date := 0, end_date := 2 } [] [] []
     (by decide)⟩

/-- C2: for every request with `end_date > start_date`, daily-schedule
construction at `trip_duration = (end_date - start_date).days` (the value the
composer passes) produces exactly that many schedules, and the schedule at
day index `i` carries the calendar date `start_date + i`. -/
theorem c2_daily_schedule_count_and_dates (request : SearchRequest)
    (pois : List PointOfInterest)
    (hdates : request.start_date < request.end_date) :
    (((createDailySchedules request pois
        (request.end_date - request.start_date).toNat).length : Int)
      = request.end_date - request.start_date) ∧
    (∀ i : Nat, i < (request.end_date - request.start_date).toNat →
      ((createDailySchedules request pois
          (request.end_date - request.start_date).toNat).getD i default).date
        = request.start_date + i) := by
  constructor
  · simp only [createDailySchedules, List.length_map, List.length_range]
    omega
  · intro i hi
    have hlen : i < (createDailySchedules request pois
        (request.end_date - request.start_date).toNat).length := by
      simpa only [createDailySchedules, List.length_map, List.length_range] using hi
    rw [List.getD_eq_getElem _ _ hlen]
    simp [createDailySchedules]

/-- Witness for C2's theorem at a concrete input. -/
theorem c2_daily_schedule_count_and_dates_witness :
    ((0 : Int) < 3) ∧
    (((createDailySchedules { destination := "LA", start_date := 0, end_date := 3 } []
        ((3 : Int) - 0).toNat).length : Int) = (3 : Int) - 0) ∧
    (∀ i : Nat, i < ((3 : Int) - 0).toNat →
      ((createDailySchedules { destination := "LA", start_date := 0, end_date := 3 } []
          ((3 : Int) - 0).toNat).getD i default).date = 0 + i) :=
  ⟨by decide,
   c2_daily_schedule_count_and_dates
     { destination := "LA", start_date := 0, end_date := 3 } [] (by decide)⟩

/-- C4: an empty flight list gives `(none, none)`; a non-empty one gives as
outbound a candidate that is minimal for (price, then duration), and as
return the second candidate of the (price, duration)-ascending order when at
least two candidates exist, otherwise the outbound flight itself. -/
theorem c4_flight_selection (flights : List Flight) (request : SearchRequest) :
    (flights = [] → selectBestFlights flights request = (none, none)) ∧
    (flights ≠ [] →
      ∃ outbound,
        (selectBestFlights flights request).1 = some outbound ∧
        outbound ∈ flights ∧
        (∀ f ∈ flights, outbound.price < f.price ∨
          (outbound.price = f.price ∧
            outbound.duration_minutes ≤ f.duration_minutes)) ∧
        (selectBestFlights flights request).2 =
          (if 1 < flights.length
           then (List.insertionSort flightLE flights)[1]?
           else some outbound)) := by
  constructor
  · intro h
    subst h
    rfl
  · intro hne
    have hempty : flights.isEmpty = false := List.isEmpty_eq_false.mpr hne
    have hlen : (List.insertionSort flightLE flights).length = flights.length :=
      List.length_insertionSort _ _
    cases hs : List.insertionSort flightLE flights with
    | nil =>
      exfalso
      rw [hs] at hlen
      exact hne (List.length_eq_zero.mp hlen.symm)
    | cons y ys =>
      have hhead : (List.insertionSort flightLE flights).head? = some y := by
        rw [hs]; rfl
      obtain ⟨hmem, hmin⟩ := head?_insertionSort_min flightLE flights y hhead
      refine ⟨y, ?_, hmem, fun f hf => hmin f hf, ?_⟩
      · simp only [selectBestFlights, hempty, Bool.false_eq_true, if_false, hs]
        rfl
      · simp only [selectBestFlights, hempty, Bool.false_eq_true, if_false, hs]
        rw [← hs, hlen]
        by_cases h1 : 1 < flights.length
        · simp only [gt_iff_lt, h1, if_true, if_pos h1]
        · simp only [gt_iff_lt, h1, if_false, if_neg h1, hs]
          rfl

/-- Witness for C4's theorem: both cases instantiated concretely. -/
theorem c4_flight_selection_witness :
    (([] : List Flight) = [] ∧
      selectBestFlights [] { destination := "LA", start_date := 0, end_date := 5 }
        = (none, none)) ∧
    ([exFlightB, exFlightA] ≠ [] ∧
      ∃ outbound,
        (selectBestFlights [exFlightB, exFlightA]
            { destination := "LA", start_date := 0, end_date := 5 }).1 = some outbound ∧
        outbound ∈ [exFlightB, exFlightA] ∧
        (∀ f ∈ [exFlightB, exFlightA], outbound.price < f.price ∨
          (outbound.price = f.price ∧
            outbound.duration_minutes ≤ f.duration_minutes)) ∧
        (selectBestFlights [exFlightB, exFlightA]
            { destination := "LA", start_date := 0, end_date := 5 }).2 =
          (if 1 < ([exFlightB, exFlightA] : List Flight).length
           then (List.insertionSort flightLE [exFlightB, exFlightA])[1]?
           else some outbound)) :=
  ⟨⟨rfl, (c4_flight_selection []
      { destination := "LA", start_date := 0, end_date := 5 }).1 rfl⟩,
   ⟨by decide, (c4_flight_selection [exFlightB, exFlightA]
      { destination := "LA", start_date := 0, end_date := 5 }).2 (by decide)⟩⟩

/-- C3 counterexample: the claim asserts the nightly-price ceiling whenever
the budget is *set*, but with the budget set to exactly `0.0` Python
truthiness skips the filter in `select_best_hotels`, so a hotel whose
nightly price exceeds the ceiling `0.4 * 0 / trip_days = 0` is selected. -/
theorem c3_counterexample_budget_zero :
    ({ destination := "LA", start_date := 0, end_date := 1,
       budget := some 0 } : SearchRequest).budget = some 0 ∧
    ¬ (∀ hsel ∈ selectBestHotels [exHotelA]
          { destination := "LA", start_date := 0, end_date := 1, budget := some 0 } 1,
        hsel.price_per_night ≤ (2/5 : ℚ) * 0 / (1 : ℚ)) := by
  refine ⟨rfl, fun hall => ?_⟩
  have hmem : exHotelA ∈ selectBestHotels [exHotelA]
      { destination := "LA", start_date := 0, end_date := 1, budget := some 0 } 1 := by
    have heval : selectBestHotels [exHotelA]
        { destination := "LA", start_date := 0, end_date := 1, budget := some 0 } 1
        = [exHotelA] := rfl
    rw [heval]
    exact List.mem_singleton_self _
  have hle := hall exHotelA hmem
  simp only [exHotelA] at hle
  exact absurd hle (by norm_num)

/-- C3 (amended: the ceiling holds whenever the budget is set *and nonzero*):
with a nonzero budget `b`, every selected hotel's nightly price is at most
`0.4 * b / trip_duration`, and the selection is the first at-most-2 of the
budget-filtered list sorted by rating descending then nightly price
ascending. -/
theorem c3_hotel_budget_filter (hotels : List Hotel) (request : SearchRequest)
    (trip_duration : Int) (b : ℚ)
    (hne : hotels ≠ []) (hb : request.budget = some b) (hbz : b ≠ 0) :
    (∀ hsel ∈ selectBestHotels hotels request trip_duration,
       hsel.price_per_night ≤ (2/5 : ℚ) * b / (trip_duration : ℚ)) ∧
    selectBestHotels hotels request trip_duration =
      (List.insertionSort hotelLE
        (hotels.filter (fun hh =>
          decide (hh.price_per_night ≤ b * (2/5 : ℚ) / (trip_duration : ℚ))))).take 2 := by
  have hempty : hotels.isEmpty = false := List.isEmpty_eq_false.mpr hne
  have htruthy : pyTruthy request.budget = true := by
    rw [hb]; simpa [pyTruthy] using hbz
  have hsel : selectBestHotels hotels request trip_duration =
      (List.insertionSort hotelLE
        (hotels.filter (fun hh =>
          decide (hh.price_per_night ≤ b * (2/5 : ℚ) / (trip_duration : ℚ))))).take 2 := by
    have htruthy' : pyTruthy (some b) = true := by simpa [pyTruthy] using hbz
    simp only [selectBestHotels, hempty, Bool.false_eq_true, if_false, hb, htruthy',
      if_true, Option.getD_some]
    exact take_two_branch_eq _
  refine ⟨?_, hsel⟩
  intro hsel' hmem
  rw [hsel] at hmem
  have hmem' := List.mem_of_mem_take hmem
  rw [List.mem_insertionSort] at hmem'
  have := (List.mem_filter.mp hmem').2
  rw [mul_comm]
  exact of_decide_eq_true this

/-- Witness for C3's amended theorem at a concrete input. -/
theorem c3_hotel_budget_filter_witness :
    ([exHotelA, exHotelB] ≠ [] ∧
     ({ destination := "LA", start_date := 0, end_date := 5,
        budget := some 2000 } : SearchRequest).budget = some 2000 ∧
     (2000 : ℚ) ≠ 0) ∧
    ((∀ hsel ∈ selectBestHotels [exHotelA, exHotelB]
          { destination := "LA", start_date := 0, end_date := 5, budget := some 2000 } 5,
        hsel.price_per_night ≤ (2/5 : ℚ) * 2000 / (5 : ℚ)) ∧
     selectBestHotels [exHotelA, exHotelB]
         { destination := "LA", start_date := 0, end_date := 5, budget := some 2000 } 5 =
       (List.insertionSort hotelLE
         ([exHotelA, exHotelB].filter (fun hh =>
           decide (hh.price_per_night ≤ 2000 * (2/5 : ℚ) / (5 : ℚ))))).take 2) :=
  ⟨⟨by decide, rfl, by decide⟩,
   c3_hotel_budget_filter [exHotelA, exHotelB]
     { destination := "LA", start_date := 0, end_date := 5, budget := some 2000 } 5 2000
     (by decide) rfl (by decide)⟩

/-- `pyTruthy` of a present value is truth of its nonzeroness. -/
theorem pyTruthy_some (b : ℚ) : pyTruthy (some b) = true ↔ b ≠ 0 := by
  simp [pyTruthy]

/-- Example daily schedules for days 0, 1, 2 (no activities). -/
def exSchedules : List DailySchedule := [{ date := 0 }, { date := 1 }, { date := 2 }]

/-- Example itinerary with one hotel, three days and a budget of exactly 0.0;
its estimated cost is 65 * 3 = 195. -/
def exItineraryZeroBudget : Itinerary :=
  { trip_name := "Trip to LA", destination := "LA", start_date := 0, end_date := 2,
    total_days := 3, hotels := [exHotelB], daily_schedules := exSchedules,
    total_budget := some 0 }

/-- C5 counterexample: the claim's rule (4) says validation fails whenever the
estimated cost exceeds a *set* budget, but with `total_budget` set to exactly
`0.0` Python truthiness skips the budget check in `validate_itinerary`: the
cost (195) exceeds the budget (0) and validation still returns `True`. -/
theorem c5_counterexample_budget_zero :
    exItineraryZeroBudget.total_budget = some 0 ∧
    ¬ (calculateTotalCost exItineraryZeroBudget ≤ 0) ∧
    validateItinerary exItineraryZeroBudget = true := by
  refine ⟨rfl, ?_, rfl⟩
  have hcost : calculateTotalCost exItineraryZeroBudget = 195 := by
    norm_num [calculateTotalCost, exItineraryZeroBudget, exSchedules, exHotelB]
  rw [hcost]
  norm_num

/-- C5 (amended: rule (4) applies only when `total_budget` is set *and
nonzero*, because Python truthiness also skips the check for a `0.0` budget):
`validate_itinerary` returns `True` iff the four rules hold — hotels
non-empty; outbound departure date (if set) equals the start date; as many
daily schedules as `total_days`; and, for a set nonzero budget, cost within
budget.  The source checks them in this order, returning `False` at the
first violation. -/
theorem c5_validate_characterization (itinerary : Itinerary) :
    validateItinerary itinerary = true ↔
      (itinerary.hotels ≠ [] ∧
       (∀ f, itinerary.outbound_flight = some f →
          f.departure_time.date = itinerary.start_date) ∧
       ((itinerary.daily_schedules.length : Int) = itinerary.total_days) ∧
       (∀ b, itinerary.total_budget = some b → b ≠ 0 →
          calculateTotalCost itinerary ≤ b)) := by
  unfold validateItinerary
  rcases ho : itinerary.outbound_flight with _ | f <;>
    rcases hb : itinerary.total_budget with _ | b <;>
      split_ifs with h1 h2 h3 h4 <;>
        simp_all [pyTruthy, List.isEmpty_iff, not_lt]

/-- Spec-side reading of the single-pick rule of C6: take the first POI of
the first category in `priority` that has any POI in `pois`; empty when no
priority category is present. -/
def specFirstPick (pois : List PointOfInterest) (priority : List ActivityType) :
    List PointOfInterest :=
  match priority.find? (fun c => pois.any (fun p => p.category == c)) with
  | some c => (poisInCategory pois c).take 1
  | none => []

/-- A category is a key of the grouping dict iff some POI has it. -/
theorem mem_categoryKeys (pois : List PointOfInterest) (c : ActivityType) :
    c ∈ categoryKeys pois ↔ ∃ p ∈ pois, p.category = c := by
  have key : ∀ (l : List PointOfInterest) (acc : List ActivityType),
      c ∈ l.foldl (fun acc p => if p.category ∈ acc then acc else acc ++ [p.category]) acc ↔
        c ∈ acc ∨ ∃ p ∈ l, p.category = c := by
    intro l
    induction l with
    | nil => intro acc; simp
    | cons p ps ih =>
      intro acc
      rw [List.foldl_cons]
      by_cases hmem : p.category ∈ acc
      · rw [if_pos hmem, ih]
        constructor
        · rintro (h | h)
          · exact Or.inl h
          · obtain ⟨q, hq, hqc⟩ := h
            exact Or.inr ⟨q, List.mem_cons_of_mem _ hq, hqc⟩
        · rintro (h | ⟨q, hq, hqc⟩)
          · exact Or.inl h
          · rcases List.mem_cons.mp hq with rfl | hq'
            · exact Or.inl (hqc ▸ hmem)
            · exact Or.inr ⟨q, hq', hqc⟩
      · rw [if_neg hmem, ih]
        simp only [List.mem_append, List.mem_singleton]
        constructor
        · rintro (⟨h | h⟩ | h)
          · exact Or.inl h
          · exact Or.inr ⟨p, List.mem_cons_self _ _, h.symm⟩
          · obtain ⟨q, hq, hqc⟩ := h
            exact Or.inr ⟨q, List.mem_cons_of_mem _ hq, hqc⟩
        · rintro (h | ⟨q, hq, hqc⟩)
          · exact Or.inl (Or.inl h)
          · rcases List.mem_cons.mp hq with rfl | hq'
            · exact Or.inl (Or.inr hqc.symm)
            · exact Or.inr ⟨q, hq', hqc⟩
  rw [categoryKeys, key pois []]
  simp

/-- The source's priority loop computes the spec-side single pick. -/
theorem pickByPriority_eq_specFirstPick (pois : List PointOfInterest)
    (priority : List ActivityType) :
    pickByPriority pois priority = specFirstPick pois priority := by
  induction priority with
  | nil => rfl
  | cons c cs ih =>
    by_cases h : c ∈ categoryKeys pois
    · have hany : pois.any (fun p => p.category == c) = true := by
        rw [List.any_eq_true]
        obtain ⟨p, hp, hpc⟩ := (mem_categoryKeys pois c).mp h
        exact ⟨p, hp, by simp [hpc]⟩
      simp only [pickByPriority, if_pos h, specFirstPick, List.find?_cons, hany]
    · have hany : pois.any (fun p => p.category == c) = false := by
        rw [Bool.eq_false_iff]
        intro hc
        obtain ⟨p, hp, hpc⟩ := List.any_eq_true.mp hc
        exact h ((mem_categoryKeys pois c).mpr ⟨p, hp, by simpa using hpc⟩)
      simp only [pickByPriority, if_neg h, ih, specFirstPick, List.find?_cons, hany]

/-- A single pick has at most one element. -/
theorem length_specFirstPick_le (pois : List PointOfInterest)
    (priority : List ActivityType) : (specFirstPick pois priority).length ≤ 1 := by
  unfold specFirstPick
  cases priority.find? (fun c => pois.any (fun p => p.category == c)) with
  | none => simp
  | some c => simp [List.length_take]

/-- Picking at most one POI per category yields at most one per category. -/
theorem length_flatMap_take_one_le (pois : List PointOfInterest)
    (cats : List ActivityType) :
    (cats.flatMap (fun c => (poisInCategory pois c).take 1)).length ≤ cats.length := by
  induction cats with
  | nil => simp
  | cons c cs ih =>
    rw [List.flatMap_cons, List.length_append, List.length_cons]
    have h1 : ((poisInCategory pois c).take 1).length ≤ 1 := by
      simp [List.length_take]
    omega

/-- C6: the day-phase policy.  Day 0 takes the single pick with priority
food, entertainment, cultural; the last day (when the trip has more than one
day) the single pick with priority shopping, food, cultural; every middle day
takes the first POI of each of the first two categories in first-occurrence
order of the input list. -/
theorem c6_day_phase_policy (pois : List PointOfInterest) (trip_duration : Nat)
    (hne : pois ≠ []) :
    (selectActivitiesForDay pois 0 trip_duration =
      specFirstPick pois
        [ActivityType.food, ActivityType.entertainment, ActivityType.cultural]) ∧
    (∀ day : Nat, day = trip_duration - 1 → 1 < trip_duration →
      selectActivitiesForDay pois day trip_duration =
        specFirstPick pois
          [ActivityType.shopping, ActivityType.food, ActivityType.cultural]) ∧
    (∀ day : Nat, 0 < day → day ≠ trip_duration - 1 →
      selectActivitiesForDay pois day trip_duration =
        ((categoryKeys pois).take 2).flatMap
          (fun c => (poisInCategory pois c).take 1)) := by
  have hempty : pois.isEmpty = false := List.isEmpty_eq_false.mpr hne
  refine ⟨?_, ?_, ?_⟩
  · simp only [selectActivitiesForDay, hempty, Bool.false_eq_true, if_false,
      beq_self_eq_true, if_true, pickByPriority_eq_specFirstPick]
    exact List.take_of_length_le (le_trans (length_specFirstPick_le _ _) (by omega))
  · intro day hlast hgt
    have h0 : (day == 0) = false := by
      rw [beq_eq_false_iff_ne]
      omega
    have hl : (day == trip_duration - 1) = true := beq_iff_eq.mpr hlast
    simp only [selectActivitiesForDay, hempty, Bool.false_eq_true, if_false, h0,
      hl, if_true, pickByPriority_eq_specFirstPick]
    exact List.take_of_length_le (le_trans (length_specFirstPick_le _ _) (by omega))
  · intro day hpos hmid
    have h0 : (day == 0) = false := by
      rw [beq_eq_false_iff_ne]
      omega
    have hl : (day == trip_duration - 1) = false := beq_eq_false_iff_ne.mpr hmid
    simp only [selectActivitiesForDay, hempty, Bool.false_eq_true, if_false, h0, hl]
    refine List.take_of_length_le ?_
    have := length_flatMap_take_one_le pois ((categoryKeys pois).take 2)
    have h2 : ((categoryKeys pois).take 2).length ≤ 2 := by
      simp [List.length_take]
    omega

/-- Witness for C6's theorem: all three phases at a concrete POI list. -/
theorem c6_day_phase_policy_witness :
    ([exPOICultural, exPOIFood] ≠ []) ∧
    (selectActivitiesForDay [exPOICultural, exPOIFood] 0 3 =
      specFirstPick [exPOICultural, exPOIFood]
        [ActivityType.food, ActivityType.entertainment, ActivityType.cultural]) ∧
    (selectActivitiesForDay [exPOICultural, exPOIFood] 2 3 =
      specFirstPick [exPOICultural, exPOIFood]
        [ActivityType.shopping, ActivityType.food, ActivityType.cultural]) ∧
    (selectActivitiesForDay [exPOICultural, exPOIFood] 1 3 =
      ((categoryKeys [exPOICultural, exPOIFood]).take 2).flatMap
        (fun c => (poisInCategory [exPOICultural, exPOIFood] c).take 1)) :=
  ⟨by decide,
   (c6_day_phase_policy [exPOICultural, exPOIFood] 3 (by decide)).1,
   (c6_day_phase_policy [exPOICultural, exPOIFood] 3 (by decide)).2.1 2 (by decide)
     (by decide),
   (c6_day_phase_policy [exPOICultural, exPOIFood] 3 (by decide)).2.2 1 (by decide)
     (by decide)⟩

/-- A running `acc + f x` fold is the starting value plus the mapped sum. -/
theorem foldl_add_map {α : Type} (f : α → ℚ) (l : List α) (c : ℚ) :
    l.foldl (fun acc x => acc + f x) c = c + (l.map f).sum := by
  induction l generalizing c with
  | nil => simp
  | cons x xs ih =>
    rw [List.foldl_cons, ih, List.map_cons, List.sum_cons]
    ring

/-- C7: the estimated total cost is the outbound price (if present), plus the
return price (if present), plus `price_per_night * total_days` for each
selected hotel, plus a fixed tier amount per scheduled activity: 20 for a
price range of one dollar sign, 50 for two, 100 for three, 0 otherwise. -/
theorem c7_total_cost_formula (itinerary : Itinerary) :
    calculateTotalCost itinerary =
      (match itinerary.outbound_flight with | some f => f.price | none => 0) +
      (match itinerary.return_flight with | some f => f.price | none => 0) +
      (itinerary.hotels.map
        (fun h => h.price_per_night * (itinerary.total_days : ℚ))).sum +
      (itinerary.daily_schedules.map (fun ds =>
        (ds.activities.map (fun act =>
          match act.price_range with
          | some "$" => (20 : ℚ)
          | some "$$" => 50
          | some "$$$" => 100
          | _ => 0)).sum)).sum := by
  have hinner : ∀ (start : ℚ) (ds : List DailySchedule),
      ds.foldl (fun acc d => d.activities.foldl
        (fun a act => a + activityTierCost act) acc) start =
        start + (ds.map (fun d => (d.activities.map activityTierCost).sum)).sum := by
    intro start ds
    induction ds generalizing start with
    | nil => simp
    | cons d rest ih =>
      rw [List.foldl_cons, foldl_add_map, ih, List.map_cons, List.sum_cons]
      ring
  have hact : (fun act : PointOfInterest =>
      match act.price_range with
      | some "$" => (20 : ℚ)
      | some "$$" => 50
      | some "$$$" => 100
      | _ => 0) = activityTierCost := by
    funext act
    rfl
  rw [hact]
  unfold calculateTotalCost
  dsimp only
  rw [foldl_add_map, hinner]
  cases itinerary.outbound_flight <;> cases itinerary.return_flight <;>
    simp

/-- C8: with each activity counted as its `duration_hours` (2.0 when absent),
a day with at least 8 hours of activities gets no free-time slots; otherwise
the afternoon slot appears when at least 2 hours remain out of 8, both slots
appear when at least 4 hours remain, and in particular a day with under 2
hours of activities gets both slots. -/
theorem c8_free_time_slots (activities : List PointOfInterest) :
    (8 ≤ totalActivityTime activities → createFreeTimeSlots activities = []) ∧
    (2 ≤ 8 - totalActivityTime activities → 8 - totalActivityTime activities < 4 →
      createFreeTimeSlots activities =
        [{ start_time := "2:00 PM", end_time := "4:00 PM",
           description := "Free time for relaxation or exploration" }]) ∧
    (4 ≤ 8 - totalActivityTime activities →
      createFreeTimeSlots activities =
        [{ start_time := "2:00 PM", end_time := "4:00 PM",
           description := "Free time for relaxation or exploration" },
         { start_time := "6:00 PM", end_time := "8:00 PM",
           description := "Evening free time" }]) ∧
    (totalActivityTime activities < 2 →
      createFreeTimeSlots activities =
        [{ start_time := "2:00 PM", end_time := "4:00 PM",
           description := "Free time for relaxation or exploration" },
         { start_time := "6:00 PM", end_time := "8:00 PM",
           description := "Evening free time" }]) := by
  unfold createFreeTimeSlots
  dsimp only
  refine ⟨?_, ?_, ?_, ?_⟩
  · intro h
    rw [if_neg (by linarith)]
  · intro h2 h4
    rw [if_pos (by linarith), if_pos (by linarith), if_neg (by linarith)]
    rfl
  · intro h4
    rw [if_pos (by linarith), if_pos (by linarith), if_pos (by linarith)]
    rfl
  · intro h2
    rw [if_pos (by linarith), if_pos (by linarith), if_pos (by linarith)]
    rfl

/-- Witness for C8's theorem: a 9-hour day gets no slots, an empty day both. -/
theorem c8_free_time_slots_witness :
    ((8 : ℚ) ≤ totalActivityTime [exPOILong] ∧ createFreeTimeSlots [exPOILong] = []) ∧
    (totalActivityTime ([] : List PointOfInterest) < 2 ∧
      createFreeTimeSlots [] =
        [{ start_time := "2:00 PM", end_time := "4:00 PM",
           description := "Free time for relaxation or exploration" },
         { start_time := "6:00 PM", end_time := "8:00 PM",
           description := "Evening free time" }]) :=
  ⟨⟨by simp [totalActivityTime, durationOrDefault, exPOILong, exPOIFood]; decide,
    (c8_free_time_slots [exPOILong]).1
      (by simp [totalActivityTime, durationOrDefault, exPOILong, exPOIFood]; decide)⟩,
   ⟨by decide, (c8_free_time_slots []).2.2.2 (by decide)⟩⟩

/-- Every day's activity pick has at most three entries. -/
theorem length_selectActivitiesForDay_le (pois : List PointOfInterest)
    (day trip_duration : Nat) :
    (selectActivitiesForDay pois day trip_duration).length ≤ 3 := by
  unfold selectActivitiesForDay
  by_cases h : pois.isEmpty
  · simp [h]
  · rw [if_neg h]
    simp [List.length_take]

/-- C9: at most 2 hotels are ever selected, every per-day activity pick has
at most 3 entries, and hence every daily schedule built by the composer
carries at most 3 activities — regardless of candidate volume. -/
theorem c9_selection_caps (hotels : List Hotel) (request : SearchRequest)
    (trip_duration : Int) (pois : List PointOfInterest) (day n : Nat)
    (request2 : SearchRequest) (m : Nat) :
    (selectBestHotels hotels request trip_duration).length ≤ 2 ∧
    (selectActivitiesForDay pois day n).length ≤ 3 ∧
    (∀ ds ∈ createDailySchedules request2 pois m, ds.activities.length ≤ 3) := by
  refine ⟨?_, length_selectActivitiesForDay_le pois day n, ?_⟩
  · unfold selectBestHotels
    by_cases h : hotels.isEmpty
    · simp [h]
    · rw [if_neg h]
      rw [take_two_branch_eq]
      simp [List.length_take]
  · intro ds hds
    unfold createDailySchedules at hds
    obtain ⟨d, hd, rfl⟩ := List.mem_map.mp hds
    exact length_selectActivitiesForDay_le pois d m

/-- Witness for C9's theorem at concrete inputs. -/
theorem c9_selection_caps_witness :
    (selectBestHotels [exHotelA, exHotelB]
        { destination := "LA", start_date := 0, end_date := 5 } 5).length ≤ 2 ∧
    (selectActivitiesForDay [exPOICultural, exPOIFood] 1 3).length ≤ 3 ∧
    (∀ ds ∈ createDailySchedules { destination := "LA", start_date := 0, end_date := 3 }
        [exPOICultural, exPOIFood] 3,
      ds.activities.length ≤ 3) :=
  c9_selection_caps [exHotelA, exHotelB]
    { destination := "LA", start_date := 0, end_date := 5 } 5
    [exPOICultural, exPOIFood] 1 3
    { destination := "LA", start_date := 0, end_date := 3 } 3

/-- C10: a budget equal to exactly `0.0` behaves identically to an absent
budget: `select_best_hotels` skips the nightly-price filter and
`validate_itinerary` skips the budget-ceiling rule. -/
theorem c10_zero_budget_like_absent (hotels : List Hotel)
    (request : SearchRequest) (trip_duration : Int) (itinerary : Itinerary)
    (hreq : request.budget = some 0) (hit : itinerary.total_budget = some 0) :
    selectBestHotels hotels request trip_duration =
      selectBestHotels hotels { request with budget := none } trip_duration ∧
    validateItinerary itinerary =
      validateItinerary { itinerary with total_budget := none } := by
  constructor
  · simp [selectBestHotels, hreq, pyTruthy]
  · simp [validateItinerary, hit, pyTruthy, calculateTotalCost]

/-- Witness for C10's theorem at concrete inputs. -/
theorem c10_zero_budget_like_absent_witness :
    (({ destination := "LA", start_date := 0, end_date := 1,
        budget := some 0 } : SearchRequest).budget = some 0 ∧
     exItineraryZeroBudget.total_budget = some 0) ∧
    (selectBestHotels [exHotelA]
        { destination := "LA", start_date := 0, end_date := 1, budget := some 0 } 1 =
      selectBestHotels [exHotelA]
        { ({ destination := "LA", start_date := 0, end_date := 1,
             budget := some 0 } : SearchRequest) with budget := none } 1 ∧
     validateItinerary exItineraryZeroBudget =
      validateItinerary { exItineraryZeroBudget with total_budget := none }) :=
  ⟨⟨rfl, rfl⟩,
   c10_zero_budget_like_absent [exHotelA]
     { destination := "LA", start_date := 0, end_date := 1, budget := some 0 } 1
     exItineraryZeroBudget rfl rfl⟩

end TripSmith
